import Mathlib

/-!
Verification development for the gyroscope room visualizer.

The per-frame simulation core lives in `src/components/GyroscopeSimulation.tsx`:
the `useFrame` callback of the `Gyroscope` component integrates the wheel spin
and perturbs the gimbal rings, `handleAxisChange` and the slider `onChange`
handlers mutate the configuration state, and `VectorDisplay` (second source
file) maps an axis and magnitude to a display vector.

Conventions of the embedding:
- JavaScript numbers used only for `=== 1` one-hot checks (the `spinAxis`
  components) are modelled as `ℚ` so the comparisons stay decidable; all
  angular quantities are `ℝ`.
- A three.js `Object3D.rotation` is an Euler triple with the default order
  `XYZ`, whose orientation matrix is `Rx(x) * Ry(y) * Rz(z)`.
- three.js `Vector3.normalize` divides by `length() || 1`, so a zero vector
  normalizes to itself instead of producing NaN.
-/

/-- A one-hot spin-axis selector as stored in React state: the literal
number triples `[1,0,0]`, `[0,1,0]`, `[0,0,1]` (type allows any numbers). -/
structure Axis3 where
  x : ℚ
  y : ℚ
  z : ℚ
  deriving DecidableEq

/-- A three.js Euler rotation (order `XYZ`): the mutable `rotation` fields
of a scene node, one real angle per axis. -/
structure Euler where
  x : ℝ
  y : ℝ
  z : ℝ

/-- `GyroscopeSimulation.tsx` line 24: per-frame spin increment
`(spinRate * spinDirection * delta * Math.PI) / 30`. -/
noncomputable def computeRotationSpeed (spinRate spinDirection delta : ℝ) : ℝ :=
  spinRate * spinDirection * delta * Real.pi / 30

/-- `GyroscopeSimulation.tsx` lines 27-36: the if/else-if chain that adds
`rotationSpeed` to exactly one Euler field of the wheel, keyed on which
component of `spinAxis` equals 1 (checked in order x, y, z). -/
def applySpinIncrement (spinAxis : Axis3) (rotationSpeed : ℝ) (r : Euler) : Euler :=
  if spinAxis.x = 1 then { r with x := r.x + rotationSpeed }
  else if spinAxis.y = 1 then { r with y := r.y + rotationSpeed }
  else if spinAxis.z = 1 then { r with z := r.z + rotationSpeed }
  else r

/-- `GyroscopeSimulation.tsx` lines 40-44: when unlocked, the outer ring's
`rotation.x` gains `sin(elapsedTime * 0.5) * 0.001` and the inner ring's
`rotation.z` gains `cos(elapsedTime * 0.3) * 0.001`; when locked the whole
block is skipped. -/
noncomputable def applyGimbalFrame (elapsedTime : ℝ) (gimbalLocked : Bool)
    (outer inner : Euler) : Euler × Euler :=
  if gimbalLocked then (outer, inner)
  else ({ outer with x := outer.x + Real.sin (elapsedTime * 0.5) * 0.001 },
        { inner with z := inner.z + Real.cos (elapsedTime * 0.3) * 0.001 })

/-- The per-call gimbal offset pair (outer x-offset, inner z-offset) the
frame adds, read off `applyGimbalFrame`: zero when locked. -/
noncomputable def computeGimbalOffsets (elapsedTime : ℝ) (gimbalLocked : Bool) : ℝ × ℝ :=
  if gimbalLocked then (0, 0)
  else (Real.sin (elapsedTime * 0.5) * 0.001, Real.cos (elapsedTime * 0.3) * 0.001)

/-- The props of the `Gyroscope` component. -/
structure GyroProps where
  spinRate : ℝ
  spinDirection : ℝ
  spinAxis : Axis3
  gimbalLocked : Bool

/-- The three mutable scene bodies the `useFrame` callback touches. -/
structure SceneBodies where
  wheel : Euler
  outerGimbal : Euler
  innerGimbal : Euler

/-- The whole `useFrame` callback, lines 21-45: spin the wheel, then perturb
the gimbal rings (all refs assumed non-null, as after the first render). -/
noncomputable def useFrameStep (p : GyroProps) (elapsedTime delta : ℝ)
    (s : SceneBodies) : SceneBodies :=
  let rotationSpeed := computeRotationSpeed p.spinRate p.spinDirection delta
  let wheel := applySpinIncrement p.spinAxis rotationSpeed s.wheel
  let gim := applyGimbalFrame elapsedTime p.gimbalLocked s.outerGimbal s.innerGimbal
  { wheel := wheel, outerGimbal := gim.1, innerGimbal := gim.2 }

/-- Iterating the wheel update over `n` identical frames. -/
def runWheelFrames (spinAxis : Axis3) (rotationSpeed : ℝ) : Nat → Euler → Euler
  | 0, e => e
  | n + 1, e => runWheelFrames spinAxis rotationSpeed n (applySpinIncrement spinAxis rotationSpeed e)

/-- Folding the gimbal update over a list of frame times. -/
noncomputable def runGimbalFrames (gimbalLocked : Bool) (times : List ℝ)
    (s : Euler × Euler) : Euler × Euler :=
  times.foldl (fun st t => applyGimbalFrame t gimbalLocked st.1 st.2) s

/-- React configuration state of `GyroscopeSimulation` (the four `useState`
hooks, lines 160-163). -/
structure ConfigurationState where
  spinRate : ℝ
  spinDirection : ℝ
  spinAxis : Axis3
  gimbalLocked : Bool

/-- Initial state: `useState(60)`, `useState(1)`, `useState([0,1,0])`,
`useState(false)`. -/
def initialConfig : ConfigurationState :=
  { spinRate := 60, spinDirection := 1, spinAxis := ⟨0, 1, 0⟩, gimbalLocked := false }

/-- The spin-rate slider handler `(e) => setSpinRate(Number(e.target.value))`:
the React state setter stores the given number as-is. -/
def setSpinRate (v : ℝ) (c : ConfigurationState) : ConfigurationState :=
  { c with spinRate := v }

/-- `handleAxisChange`, lines 164-176: a switch on the axis name that
replaces `spinAxis` with the matching one-hot triple; any other string
falls through and leaves the state unchanged. -/
def handleAxisChange (axis : String) (c : ConfigurationState) : ConfigurationState :=
  if axis = "X" then { c with spinAxis := ⟨1, 0, 0⟩ }
  else if axis = "Y" then { c with spinAxis := ⟨0, 1, 0⟩ }
  else if axis = "Z" then { c with spinAxis := ⟨0, 0, 1⟩ }
  else c

/-- Exactly one component is 1 and the other two are 0. -/
def Axis3.oneHot (a : Axis3) : Prop :=
  (a.x = 1 ∧ a.y = 0 ∧ a.z = 0) ∨ (a.x = 0 ∧ a.y = 1 ∧ a.z = 0) ∨
    (a.x = 0 ∧ a.y = 0 ∧ a.z = 1)

instance (a : Axis3) : Decidable a.oneHot := by
  unfold Axis3.oneHot
  infer_instance

/-- C1: the per-frame spin increment is the stated RPM conversion, the
60 RPM / (1/60) s frame gives π/30 rad, and 60 such frames accumulate to
2π rad about Y. -/
theorem spin_increment_rpm_conversion :
    (∀ spinRate spinDirection delta : ℝ,
      computeRotationSpeed spinRate spinDirection delta =
        spinRate * spinDirection * delta * Real.pi / 30) ∧
    computeRotationSpeed 60 1 (1 / 60) = Real.pi / 30 ∧
    (runWheelFrames ⟨0, 1, 0⟩ (computeRotationSpeed 60 1 (1 / 60)) 60 ⟨0, 0, 0⟩).y =
      2 * Real.pi := by
  refine ⟨fun _ _ _ => rfl, ?_, ?_⟩
  · unfold computeRotationSpeed
    ring
  · have hyStep : ∀ s : ℝ, ∀ e : Euler,
        applySpinIncrement ⟨0, 1, 0⟩ s e = { e with y := e.y + s } := by
      intro s e
      unfold applySpinIncrement
      norm_num
    have hIter : ∀ (s : ℝ) (n : Nat) (e : Euler),
        (runWheelFrames ⟨0, 1, 0⟩ s n e).y = e.y + n * s := by
      intro s n
      induction n with
      | zero => intro e; simp [runWheelFrames]
      | succ k ih =>
          intro e
          rw [runWheelFrames, hyStep, ih]
          push_cast
          ring
    rw [hIter]
    unfold computeRotationSpeed
    ring

/-- C3: with the gimbal locked, both per-call offsets are the identity for
every elapsed time, and any sequence of locked frames leaves both rings
exactly where they were (no drift). -/
theorem gimbal_lock_is_identity :
    (∀ elapsedTime : ℝ, computeGimbalOffsets elapsedTime true = (0, 0)) ∧
    (∀ (elapsedTime : ℝ) (outer inner : Euler),
      applyGimbalFrame elapsedTime true outer inner = (outer, inner)) ∧
    (∀ (times : List ℝ) (s : Euler × Euler), runGimbalFrames true times s = s) := by
  refine ⟨fun _ => rfl, fun _ _ _ => rfl, ?_⟩
  intro times
  induction times with
  | nil => intro s; rfl
  | cons t rest ih =>
      intro s
      show runGimbalFrames true rest (applyGimbalFrame t true s.1 s.2) = s
      rw [show applyGimbalFrame t true s.1 s.2 = (s.1, s.2) from rfl]
      exact ih s

/-- C4: with the gimbal unlocked, the outer-ring call adds exactly
`sin(elapsedTime * 0.5) * 0.001` to its x rotation and the inner-ring call
adds exactly `cos(elapsedTime * 0.3) * 0.001` to its z rotation, whatever
the rings' current orientations are; the other Euler fields are untouched,
and the offsets ignore `delta` entirely (they depend on elapsed time
alone, so any frame-rate trace reaching the same elapsed time gets the
same instantaneous offset). -/
theorem gimbal_unlocked_offsets :
    (∀ elapsedTime : ℝ, computeGimbalOffsets elapsedTime false =
      (Real.sin (elapsedTime * 0.5) * 0.001, Real.cos (elapsedTime * 0.3) * 0.001)) ∧
    (∀ (elapsedTime : ℝ) (outer inner : Euler),
      (applyGimbalFrame elapsedTime false outer inner).1.x - outer.x =
        Real.sin (elapsedTime * 0.5) * 0.001 ∧
      (applyGimbalFrame elapsedTime false outer inner).2.z - inner.z =
        Real.cos (elapsedTime * 0.3) * 0.001 ∧
      (applyGimbalFrame elapsedTime false outer inner).1.y = outer.y ∧
      (applyGimbalFrame elapsedTime false outer inner).1.z = outer.z ∧
      (applyGimbalFrame elapsedTime false outer inner).2.x = inner.x ∧
      (applyGimbalFrame elapsedTime false outer inner).2.y = inner.y) ∧
    (∀ (p : GyroProps) (elapsedTime delta delta' : ℝ) (s : SceneBodies),
      (useFrameStep p elapsedTime delta s).outerGimbal =
        (useFrameStep p elapsedTime delta' s).outerGimbal ∧
      (useFrameStep p elapsedTime delta s).innerGimbal =
        (useFrameStep p elapsedTime delta' s).innerGimbal) := by
  refine ⟨fun _ => rfl, fun t outer inner => ?_, fun p t d d' s => ⟨rfl, rfl⟩⟩
  refine ⟨?_, ?_, rfl, rfl, rfl, rfl⟩ <;>
    simp [applyGimbalFrame]

/-- C8: every recognized axis-selection call (`"X"`, `"Y"`, or `"Z"`)
replaces `spinAxis` with a one-hot triple, and the result is independent of
whatever the previous axis state was (atomic replacement, no
accumulation). -/
theorem axis_selection_one_hot (axis : String) (c c' : ConfigurationState)
    (h : axis = "X" ∨ axis = "Y" ∨ axis = "Z") :
    (handleAxisChange axis c).spinAxis.oneHot ∧
    (handleAxisChange axis c).spinAxis = (handleAxisChange axis c').spinAxis := by
  rcases h with h | h | h <;>
    subst h <;>
    constructor <;>
    simp [handleAxisChange, Axis3.oneHot]

/-- Witness for `axis_selection_one_hot` at `"Y"` after a previous `X`
selection. -/
theorem axis_selection_one_hot_witness :
    ("Y" = "X" ∨ "Y" = "Y" ∨ "Y" = "Z") ∧
    ((handleAxisChange "Y" (handleAxisChange "X" initialConfig)).spinAxis.oneHot ∧
      (handleAxisChange "Y" (handleAxisChange "X" initialConfig)).spinAxis =
        (handleAxisChange "Y" initialConfig).spinAxis) :=
  ⟨Or.inr (Or.inl rfl),
    axis_selection_one_hot "Y" (handleAxisChange "X" initialConfig) initialConfig
      (Or.inr (Or.inl rfl))⟩

/-- C10: each frame modifies at most one of the wheel's three Euler
rotation fields, and when several components of `spinAxis` equal 1 the
first match in the fixed order x, y, z wins: only that field receives the
increment. -/
theorem wheel_update_single_field_precedence :
    (∀ (a : Axis3) (s : ℝ) (e : Euler),
      ((applySpinIncrement a s e).y = e.y ∧ (applySpinIncrement a s e).z = e.z) ∨
      ((applySpinIncrement a s e).x = e.x ∧ (applySpinIncrement a s e).z = e.z) ∨
      ((applySpinIncrement a s e).x = e.x ∧ (applySpinIncrement a s e).y = e.y)) ∧
    (∀ (s : ℝ) (e : Euler),
      applySpinIncrement ⟨1, 1, 1⟩ s e = { e with x := e.x + s } ∧
      applySpinIncrement ⟨1, 1, 0⟩ s e = { e with x := e.x + s } ∧
      applySpinIncrement ⟨1, 0, 1⟩ s e = { e with x := e.x + s } ∧
      applySpinIncrement ⟨0, 1, 1⟩ s e = { e with y := e.y + s }) := by
  constructor
  · intro a s e
    unfold applySpinIncrement
    by_cases hx : a.x = 1
    · simp [hx]
    · by_cases hy : a.y = 1
      · simp [hx, hy]
      · by_cases hz : a.z = 1 <;> simp [hx, hy, hz]
  · intro s e
    refine ⟨?_, ?_, ?_, ?_⟩ <;> simp [applySpinIncrement]

/-- Rotation by `a` radians about the x axis (three.js `makeRotationX`). -/
noncomputable def rotX (a : ℝ) : Matrix (Fin 3) (Fin 3) ℝ :=
  !![1, 0, 0;
     0, Real.cos a, -Real.sin a;
     0, Real.sin a, Real.cos a]

/-- Rotation by `a` radians about the y axis (three.js `makeRotationY`). -/
noncomputable def rotY (a : ℝ) : Matrix (Fin 3) (Fin 3) ℝ :=
  !![Real.cos a, 0, Real.sin a;
     0, 1, 0;
     -Real.sin a, 0, Real.cos a]

/-- Rotation by `a` radians about the z axis (three.js `makeRotationZ`). -/
noncomputable def rotZ (a : ℝ) : Matrix (Fin 3) (Fin 3) ℝ :=
  !![Real.cos a, -Real.sin a, 0;
     Real.sin a, Real.cos a, 0;
     0, 0, 1]

/-- The orientation matrix three.js derives from an Euler triple in the
default order `XYZ`: `Rx(x) * Ry(y) * Rz(z)`
(`Matrix4.makeRotationFromEuler`). -/
noncomputable def eulerToMatrix (e : Euler) : Matrix (Fin 3) (Fin 3) ℝ :=
  rotX e.x * rotY e.y * rotZ e.z

/-- Modelled from the spec: the §4.1 contract that C2 attributes to the
code — take the single active axis from `spinAxis`, build a rotation of
`angle` radians about it, and post-multiply it onto the body's existing
orientation (identity when no axis is active). Stated here only to compare
against the code's Euler-field update. -/
noncomputable def composeSpinIncrement (spinAxis : Axis3) (angle : ℝ)
    (m : Matrix (Fin 3) (Fin 3) ℝ) : Matrix (Fin 3) (Fin 3) ℝ :=
  m * (if spinAxis.x = 1 then rotX angle
       else if spinAxis.y = 1 then rotY angle
       else if spinAxis.z = 1 then rotZ angle
       else 1)

lemma computeRotationSpeed_300_pi_half :
    computeRotationSpeed 300 1 (1 / 20) = Real.pi / 2 := by
  unfold computeRotationSpeed
  ring

lemma euler_update_ne_composition :
    eulerToMatrix (applySpinIncrement ⟨1, 0, 0⟩ (Real.pi / 2)
        (applySpinIncrement ⟨0, 1, 0⟩ (Real.pi / 2) ⟨0, 0, 0⟩)) ≠
      composeSpinIncrement ⟨1, 0, 0⟩ (Real.pi / 2)
        (composeSpinIncrement ⟨0, 1, 0⟩ (Real.pi / 2) (eulerToMatrix ⟨0, 0, 0⟩)) := by
  have hcodeE : applySpinIncrement ⟨1, 0, 0⟩ (Real.pi / 2)
      (applySpinIncrement ⟨0, 1, 0⟩ (Real.pi / 2) ⟨0, 0, 0⟩) =
        (⟨Real.pi / 2, Real.pi / 2, 0⟩ : Euler) := by
    norm_num [applySpinIncrement]
  have hLe : eulerToMatrix ⟨Real.pi / 2, Real.pi / 2, 0⟩ 0 1 = 0 := by
    simp [eulerToMatrix, rotX, rotY, rotZ, Matrix.mul_apply, Fin.sum_univ_three,
      Real.cos_pi_div_two, Real.sin_pi_div_two]
  have hRe : composeSpinIncrement ⟨1, 0, 0⟩ (Real.pi / 2)
      (composeSpinIncrement ⟨0, 1, 0⟩ (Real.pi / 2) (eulerToMatrix ⟨0, 0, 0⟩)) 0 1 = 1 := by
    norm_num [composeSpinIncrement, eulerToMatrix, rotX, rotY, rotZ, Matrix.mul_apply,
      Fin.sum_univ_three, Real.cos_pi_div_two, Real.sin_pi_div_two]
  intro h
  rw [hcodeE] at h
  have h01 := Matrix.ext_iff.mpr h 0 1
  rw [hLe, hRe] at h01
  exact zero_ne_one h01

/-- C2 counterexample: two consecutive real frames (each with increment
`computeRotationSpeed 300 1 (1/20) = π/2`), the first about Y and the
second about X, leave the wheel's Euler state with an orientation matrix
different from the one the claimed axis-angle post-multiplication contract
produces from the same identity start — the code's additive Euler-field
update is not the claimed composition. -/
theorem spin_composition_claim_false :
    eulerToMatrix (applySpinIncrement ⟨1, 0, 0⟩ (computeRotationSpeed 300 1 (1 / 20))
        (applySpinIncrement ⟨0, 1, 0⟩ (computeRotationSpeed 300 1 (1 / 20)) ⟨0, 0, 0⟩)) ≠
      composeSpinIncrement ⟨1, 0, 0⟩ (computeRotationSpeed 300 1 (1 / 20))
        (composeSpinIncrement ⟨0, 1, 0⟩ (computeRotationSpeed 300 1 (1 / 20))
          (eulerToMatrix ⟨0, 0, 0⟩)) := by
  rw [computeRotationSpeed_300_pi_half]
  exact euler_update_ne_composition

/-- C2 amended: each frame the code adds the spin increment to the single
Euler rotation field selected by the first component of `spinAxis` equal
to 1 (checked in x, y, z order) — an additive Euler-field update, which is
not equivalent to composing a single axis-angle rotation with the body's
existing orientation once the selected axis changes mid-run. -/
theorem spin_applied_as_euler_field_update :
    (∀ (s : ℝ) (e : Euler),
      applySpinIncrement ⟨1, 0, 0⟩ s e = { e with x := e.x + s } ∧
      applySpinIncrement ⟨0, 1, 0⟩ s e = { e with y := e.y + s } ∧
      applySpinIncrement ⟨0, 0, 1⟩ s e = { e with z := e.z + s }) ∧
    eulerToMatrix (applySpinIncrement ⟨1, 0, 0⟩ (Real.pi / 2)
        (applySpinIncrement ⟨0, 1, 0⟩ (Real.pi / 2) ⟨0, 0, 0⟩)) ≠
      composeSpinIncrement ⟨1, 0, 0⟩ (Real.pi / 2)
        (composeSpinIncrement ⟨0, 1, 0⟩ (Real.pi / 2) (eulerToMatrix ⟨0, 0, 0⟩)) := by
  refine ⟨fun s e => ⟨?_, ?_, ?_⟩, euler_update_ne_composition⟩ <;>
    norm_num [applySpinIncrement]

/-- A three.js `Vector3` over the reals. -/
structure Vec3 where
  x : ℝ
  y : ℝ
  z : ℝ

/-- three.js `Vector3.length`: the Euclidean norm. -/
noncomputable def Vec3.len (v : Vec3) : ℝ :=
  Real.sqrt (v.x ^ 2 + v.y ^ 2 + v.z ^ 2)

/-- three.js `Vector3.normalize`: `divideScalar(length() || 1)` — the JS
`||` falls back to 1 when the length is 0, so a zero vector stays the zero
vector instead of dividing by zero. -/
noncomputable def Vec3.normalize (v : Vec3) : Vec3 :=
  let d := if Vec3.len v = 0 then 1 else Vec3.len v
  ⟨v.x / d, v.y / d, v.z / d⟩

/-- The `axis` prop of `VectorDisplay` as a `Vector3`
(`new THREE.Vector3(...axis)`). -/
noncomputable def vec3OfAxis (a : Axis3) : Vec3 :=
  ⟨(a.x : ℝ), (a.y : ℝ), (a.z : ℝ)⟩

/-- `VectorDisplay` line 12:
`new THREE.Vector3(...axis).normalize().multiplyScalar(magnitude)`. -/
noncomputable def displayVector (axis : Axis3) (magnitude : ℝ) : Vec3 :=
  let n := Vec3.normalize (vec3OfAxis axis)
  ⟨n.x * magnitude, n.y * magnitude, n.z * magnitude⟩

/-- C9: the zero-vector axis is absorbed everywhere: the wheel update's
if/else-if chain matches no branch, leaving the orientation unchanged
(zero-angle identity increment, no fault), and the angular-vector mapper
yields the zero vector of length 0 (the three.js normalize guard divides
by 1, not by the zero length). -/
theorem zero_axis_contribution_is_zero :
    (∀ (s : ℝ) (e : Euler), applySpinIncrement ⟨0, 0, 0⟩ s e = e) ∧
    (∀ magnitude : ℝ,
      displayVector ⟨0, 0, 0⟩ magnitude = ⟨0, 0, 0⟩ ∧
      Vec3.len (displayVector ⟨0, 0, 0⟩ magnitude) = 0) := by
  have hzero : ∀ m : ℝ, displayVector ⟨0, 0, 0⟩ m = ⟨0, 0, 0⟩ := by
    intro m
    simp [displayVector, Vec3.normalize, vec3OfAxis, Vec3.len]
  refine ⟨fun s e => by norm_num [applySpinIncrement], fun m => ⟨hzero m, ?_⟩⟩
  rw [hzero]
  simp [Vec3.len]

/-- C5 counterexample: the spin-rate setter does not clamp — passing 500
stores 500 in the configuration, a value outside [0, 300]. -/
theorem spin_rate_setter_no_clamp :
    (setSpinRate 500 initialConfig).spinRate = 500 ∧
    ¬ (setSpinRate 500 initialConfig).spinRate ≤ 300 := by
  refine ⟨rfl, ?_⟩
  show ¬ (500 : ℝ) ≤ 300
  norm_num

/-- C5 amended: the spin-rate setter stores the supplied value unchanged
and touches no other field; no clamping to [0, 300] happens at the setter
boundary (the range is only narrowed by the slider's min/max markup). -/
theorem spin_rate_setter_stores_value :
    ∀ (v : ℝ) (c : ConfigurationState),
      (setSpinRate v c).spinRate = v ∧
      (setSpinRate v c).spinDirection = c.spinDirection ∧
      (setSpinRate v c).spinAxis = c.spinAxis ∧
      (setSpinRate v c).gimbalLocked = c.gimbalLocked :=
  fun _ _ => ⟨rfl, rfl, rfl, rfl⟩

/-- C6 counterexample: `deltaTime` reaches the integrator unclamped: a
single frame with delta = 30 s at 60 RPM differs from the 1/15 s-clamped
value the claim would force, and turns the wheel by more than a full
revolution (60π rad) in one frame. -/
theorem delta_time_not_clamped :
    computeRotationSpeed 60 1 30 ≠ computeRotationSpeed 60 1 (1 / 15) ∧
    2 * Real.pi < computeRotationSpeed 60 1 30 := by
  unfold computeRotationSpeed
  constructor
  · intro h
    nlinarith [Real.pi_pos]
  · nlinarith [Real.pi_pos]

/-- C6 amended: no clamp is applied to `deltaTime` anywhere on the frame
path: at the default 60 RPM configuration the single-frame angle is
`2π * delta`, linear and unbounded above in the raw delta. -/
theorem delta_time_unclamped_unbounded :
    (∀ delta : ℝ, computeRotationSpeed 60 1 delta = 2 * Real.pi * delta) ∧
    (∀ bound : ℝ, ∃ delta : ℝ, bound < computeRotationSpeed 60 1 delta) := by
  have hlin : ∀ d : ℝ, computeRotationSpeed 60 1 d = 2 * Real.pi * d := by
    intro d
    unfold computeRotationSpeed
    ring
  refine ⟨hlin, fun bound => ⟨bound / (2 * Real.pi) + 1, ?_⟩⟩
  rw [hlin]
  have h2 : (0 : ℝ) < 2 * Real.pi := by positivity
  have hval : 2 * Real.pi * (bound / (2 * Real.pi) + 1) = bound + 2 * Real.pi := by
    field_simp
  rw [hval]
  linarith

/-- C7 counterexample: a frame with `deltaTime = -1` is not a no-op: from
the default configuration and identity orientations it moves the wheel's
y rotation from 0 to -2π. -/
theorem negative_delta_not_noop :
    (useFrameStep ⟨60, 1, ⟨0, 1, 0⟩, false⟩ 1 (-1)
        ⟨⟨0, 0, 0⟩, ⟨0, 0, 0⟩, ⟨0, 0, 0⟩⟩).wheel.y = -(2 * Real.pi) ∧
    (useFrameStep ⟨60, 1, ⟨0, 1, 0⟩, false⟩ 1 (-1)
        ⟨⟨0, 0, 0⟩, ⟨0, 0, 0⟩, ⟨0, 0, 0⟩⟩).wheel.y ≠ 0 := by
  have h : (useFrameStep ⟨60, 1, ⟨0, 1, 0⟩, false⟩ 1 (-1)
      ⟨⟨0, 0, 0⟩, ⟨0, 0, 0⟩, ⟨0, 0, 0⟩⟩).wheel.y = -(2 * Real.pi) := by
    norm_num [useFrameStep, computeRotationSpeed, applySpinIncrement]
    ring
  refine ⟨h, ?_⟩
  rw [h]
  have := Real.pi_pos
  intro hc
  nlinarith

/-- C7 amended: nothing guards against negative (or otherwise unusual)
time inputs: the frame applies the signed increment as-is, so at the
default configuration the wheel's y rotation always moves by exactly
`2π * delta`, backwards when delta is negative. -/
theorem negative_delta_applied_as_is :
    ∀ (elapsedTime delta : ℝ) (s : SceneBodies),
      (useFrameStep ⟨60, 1, ⟨0, 1, 0⟩, false⟩ elapsedTime delta s).wheel.y =
        s.wheel.y + 2 * Real.pi * delta := by
  intro t d s
  norm_num [useFrameStep, computeRotationSpeed, applySpinIncrement]
  ring
